import Mathlib

/-!
Shallow embedding of the StreamHub video-catalog application
(`src/main.py`, `src/models.py`, `src/database.py`).

Python strings are modelled as Lean `String`; the Python string
operations used by the code (`split`, `strip`, `in`, `startswith`,
`replace`, `len`) are re-implemented below by structural recursion on
the underlying character list so that every definition is executable and
kernel-reducible.  The SQLAlchemy session of `database.py` is created
with `autocommit=False, autoflush=False` and is closed (hence rolled
back) by the `get_db` dependency when a request handler raises, so the
database is modelled as a list of records that changes only at
`db.commit()`.  The filesystem is modelled as the list of existing
banner paths.  Each operation additionally returns the ordered trace of
its side effects (file writes, file deletions, commits).
-/

namespace StreamHub

/-- Python whitespace characters stripped by `str.strip()` (ASCII range). -/
def isPySpace (c : Char) : Bool :=
  c = ' ' || c = '\t' || c = '\n' || c = '\x0d' || c = '\x0b' || c = '\x0c'

/-- Core loop of Python `str.split(sep)` for a non-empty separator:
left-to-right, non-overlapping, keeping empty pieces.  `fuel` bounds the
recursion (any `fuel ≥ length of the input` gives the true answer). -/
def splitListAux (sep : List Char) : Nat → List Char → List Char → List (List Char)
  | _, [], acc => [acc.reverse]
  | 0, rest, acc => [acc.reverse ++ rest]
  | Nat.succ fuel, c :: rest, acc =>
    if sep.isPrefixOf (c :: rest) then
      acc.reverse :: splitListAux sep fuel ((c :: rest).drop sep.length) []
    else
      splitListAux sep fuel rest (c :: acc)

/-- Python `s.split(sep)` for a non-empty separator. -/
def pySplit (s sep : String) : List String :=
  (splitListAux sep.data s.data.length s.data []).map String.mk

/-- Python `needle in hay` (substring containment) on character lists. -/
def isSubList (needle : List Char) : List Char → Bool
  | [] => needle.isEmpty
  | c :: rest => needle.isPrefixOf (c :: rest) || isSubList needle rest

/-- Python `needle in hay` (substring containment). -/
def pyIn (needle hay : String) : Bool :=
  isSubList needle.data hay.data

/-- Python `s.strip()`. -/
def pyStrip (s : String) : String :=
  String.mk (((s.data.dropWhile isPySpace).reverse.dropWhile isPySpace).reverse)

/-- Python `len(s)`. -/
def pyLen (s : String) : Nat := s.data.length

/-- Python `s.startswith(p)`. -/
def pyStartswith (s p : String) : Bool := p.data.isPrefixOf s.data

/-- Python `s.replace(old, new)` for a non-empty `old`. -/
def pyReplace (s old new : String) : String :=
  String.mk (List.intercalate new.data (splitListAux old.data s.data.length s.data []))

/-- Model of `extract_streamtape_id` (src/main.py:55-65).  Python:
`url.split('/e/')[-1].split('/')[0]` when `'/e/' in url`, else
`url.split('/')[-1].replace('/', '')`.  The `except` fallback returning
`"invalid_id"` is unreachable here: all the string operations involved
are total on strings. -/
def extract_streamtape_id (url : String) : String :=
  if pyIn "/e/" url then
    ((pySplit url "/e/").getLastD "" |> fun t => (pySplit t "/").headD "")
  else
    pyReplace ((pySplit url "/").getLastD "") "/" ""

/-- An HTTP error raised by a handler (`HTTPException(status_code, detail)`).
Details with apostrophes in the source are transcribed without them. -/
structure HTTPError where
  status_code : Nat
  detail : String
deriving Repr, DecidableEq

/-- A persisted `Video` row (src/models.py:7-33).  Timestamps are modelled
as abstract `Nat` clock values. -/
structure Video where
  id : Nat
  title : String
  description : Option String
  hashtags : Option String
  streamtape_url : String
  streamtape_id : String
  banner_path : String
  created_at : Nat
  updated_at : Nat
deriving Repr, DecidableEq

/-- Model of `Video.hashtag_list` (src/models.py:20-25): `[]` when `hashtags` is
falsy (None or empty), else comma-split, each entry stripped, entries
with falsy (empty) strip dropped. -/
def Video.hashtag_list (v : Video) : List String :=
  match v.hashtags with
  | none => []
  | some h =>
    if h = "" then []
    else ((pySplit h ",").map pyStrip).filter (fun t => ¬ t = "")

/-- Model of `Video.embed_url` (src/models.py:27-30). -/
def Video.embed_url (v : Video) : String :=
  "https://streamtape.com/e/" ++ v.streamtape_id ++ "/"

/-- Model of `validate_form_input` (src/main.py:98-107): returns the raised
`HTTPException`, or `none` when validation passes.  Checks run in source
order: both title checks before the URL check. -/
def validate_form_input (title streamtape_url : String) : Option HTTPError :=
  if title = "" || pyLen (pyStrip title) = 0 then
    some ⟨400, "Title is required"⟩
  else if 255 < pyLen (pyStrip title) then
    some ⟨400, "Title too long (max 255 characters)"⟩
  else if streamtape_url = "" || !(pyIn "streamtape.com" streamtape_url) then
    some ⟨400, "Invalid Streamtape URL - must contain streamtape.com"⟩
  else
    none

/-- One side effect of a request, in the order it happened.
`fileDelete p` records that `delete_file_safely` invoked `os.remove p`
(the path was non-empty and existed); whether the removal succeeded is
recorded in the resulting filesystem state. -/
inductive Event where
  | fileWrite (path : String)
  | fileDelete (path : String)
  | dbCommit
deriving Repr, DecidableEq

/-- The environment resolving the non-determinism of one request:
the random hex of `uuid.uuid4()`, whether the `aiofiles` write succeeds,
whether `db.commit()` succeeds, whether `os.remove` succeeds, and the
current clock value used for the timestamp columns. -/
structure Env where
  uuid : String
  writeOk : Bool
  commitOk : Bool
  removeOk : Bool
  now : Nat
deriving Repr, DecidableEq

/-- The persistent state: the `videos` table (in insertion order) and the
set of existing files, as a duplicate-free list of paths. -/
structure SysState where
  db : List Video
  files : List String
deriving Repr, DecidableEq

/-- A multipart file upload (`fastapi.UploadFile`); the byte content is
irrelevant to every claim and omitted. -/
structure UploadFileM where
  filename : String
  content_type : String
deriving Repr, DecidableEq

/-- Result of a request handler: a `RedirectResponse(url, status_code)`
on success, or the `HTTPException` it raises. -/
inductive OpResult where
  | redirect (status_code : Nat) (url : String)
  | err (e : HTTPError)
deriving Repr, DecidableEq

/-- A handler run: its HTTP result, the post-state, and the ordered side
effects it performed. -/
structure Outcome where
  result : OpResult
  state : SysState
  events : List Event
deriving Repr, DecidableEq

/-- Result of `save_uploaded_file`: the raised `HTTPException`, or the
returned path together with the new filesystem and the effect trace. -/
inductive SaveOutcome where
  | fail (e : HTTPError)
  | saved (path : String) (files : List String) (events : List Event)
deriving Repr, DecidableEq

/-- The extension picked in src/main.py:77:
`file.filename.split('.')[-1] if '.' in file.filename else 'jpg'`. -/
def file_extension (filename : String) : String :=
  if pyIn "." filename then (pySplit filename ".").getLastD "" else "jpg"

/-- Model of `save_uploaded_file` (src/main.py:67-88): reject a missing filename
and non-`image/` content types, then write `static/banners/<uuid>.<ext>`.
Opening with mode `wb` overwrites, so the filesystem stays
duplicate-free.  A failing write raises a 500. -/
def save_uploaded_file (env : Env) (file : UploadFileM) (files : List String) :
    SaveOutcome :=
  if file.filename = "" then
    .fail ⟨400, "No file provided"⟩
  else if !(pyStartswith file.content_type "image/") then
    .fail ⟨400, "Only image files are allowed"⟩
  else
    let file_path := "static/banners/" ++ env.uuid ++ "." ++ file_extension file.filename
    if env.writeOk then
      .saved file_path (if file_path ∈ files then files else files ++ [file_path])
        [.fileWrite file_path]
    else
      .fail ⟨500, "Failed to save file"⟩

/-- Model of `delete_file_safely` (src/main.py:90-96): call `os.remove` only when
the path is truthy and the file exists; swallow every error (modelled by
`env.removeOk = false` leaving the file in place). -/
def delete_file_safely (env : Env) (file_path : String) (files : List String) :
    List String × List Event :=
  if file_path ≠ "" ∧ file_path ∈ files then
    (if env.removeOk then files.filter (fun q => ¬ q = file_path) else files,
     [.fileDelete file_path])
  else
    (files, [])

/-- Model of `db.query(Video).filter(Video.id == video_id).first()`. -/
def findVideo (db : List Video) (video_id : Nat) : Option Video :=
  db.find? (fun w => w.id == video_id)

/-- Committing the mutation of an ORM row: the row with the draft's id is
replaced in place. -/
def replaceVideo (db : List Video) (draft : Video) : List Video :=
  db.map (fun w => if w.id == draft.id then draft else w)

/-- The autoincrement primary key assigned by the store on insert. -/
def nextId (db : List Video) : Nat :=
  (db.map Video.id).foldr max 0 + 1

/-- Python truthiness of an optional form string: `s.strip() if s else None`. -/
def optStrip (s : String) : Option String :=
  if s = "" then none else some (pyStrip s)

/-- Model of `upload_video` (src/main.py:152-197).  Validation and the file write
happen before any database effect; if `db.add`/`db.commit` raises after
the file write, the handler's `except` branches delete the written file
(`file_path` is in `locals()` exactly when the write succeeded) and
re-raise / wrap the error. -/
def upload_video (env : Env) (title description hashtags streamtape_url : String)
    (banner : UploadFileM) (s : SysState) : Outcome :=
  match validate_form_input title streamtape_url with
  | some e => ⟨.err e, s, []⟩
  | none =>
    match save_uploaded_file env banner s.files with
    | .fail e => ⟨.err e, s, []⟩
    | .saved file_path files1 ev1 =>
      let video : Video :=
        { id := nextId s.db
          title := pyStrip title
          description := optStrip description
          hashtags := optStrip hashtags
          streamtape_url := pyStrip streamtape_url
          streamtape_id := extract_streamtape_id streamtape_url
          banner_path := file_path
          created_at := env.now
          updated_at := env.now }
      if env.commitOk then
        ⟨.redirect 303 "/admin", ⟨s.db ++ [video], files1⟩, ev1 ++ [.dbCommit]⟩
      else
        let (files2, ev2) := delete_file_safely env file_path files1
        ⟨.err ⟨500, "Failed to upload video"⟩, ⟨s.db, files2⟩, ev1 ++ ev2⟩

/-- The commit step shared by both `update_video` branches: on success
the draft replaces the row; on a failing commit the session is rolled
back on close, so the table is unchanged (but file effects stay). -/
def commitUpdate (env : Env) (s : SysState) (draft : Video)
    (files : List String) (ev : List Event) : Outcome :=
  if env.commitOk then
    ⟨.redirect 303 "/admin", ⟨replaceVideo s.db draft, files⟩, ev ++ [.dbCommit]⟩
  else
    ⟨.err ⟨500, "Failed to update video"⟩, ⟨s.db, files⟩, ev⟩

/-- Model of `update_video` (src/main.py:238-283): 404 on a missing id, then
validation, then the in-session field mutations (flushed only at
commit since the session has `autoflush=False`), then — only when a
banner with a truthy filename was supplied — the new file write followed
immediately by the best-effort delete of the old path when it differs,
and finally `db.commit()`.  Note the delete precedes the commit. -/
def update_video (env : Env) (video_id : Nat)
    (title description hashtags streamtape_url : String)
    (banner : Option UploadFileM) (s : SysState) : Outcome :=
  match findVideo s.db video_id with
  | none => ⟨.err ⟨404, "Video not found"⟩, s, []⟩
  | some video =>
    match validate_form_input title streamtape_url with
    | some e => ⟨.err e, s, []⟩
    | none =>
      let old_banner_path := video.banner_path
      let draft : Video :=
        { video with
          title := pyStrip title
          description := optStrip description
          hashtags := optStrip hashtags
          streamtape_url := pyStrip streamtape_url
          streamtape_id := extract_streamtape_id streamtape_url
          updated_at := env.now }
      match banner with
      | some b =>
        if b.filename ≠ "" then
          match save_uploaded_file env b s.files with
          | .fail e => ⟨.err e, s, []⟩
          | .saved new_banner_path files1 ev1 =>
            let draft2 := { draft with banner_path := new_banner_path }
            let (files2, ev2) :=
              if old_banner_path ≠ new_banner_path then
                delete_file_safely env old_banner_path files1
              else (files1, [])
            commitUpdate env s draft2 files2 (ev1 ++ ev2)
        else
          commitUpdate env s draft s.files []
      | none =>
        commitUpdate env s draft s.files []

/-- Model of `delete_video` (src/main.py:199-219): 404 on a missing id, then the
best-effort banner delete, then `db.delete` + `db.commit`.  A failing
commit is wrapped as a 500; the file effect is not undone. -/
def delete_video (env : Env) (video_id : Nat) (s : SysState) : Outcome :=
  match findVideo s.db video_id with
  | none => ⟨.err ⟨404, "Video not found"⟩, s, []⟩
  | some video =>
    let (files1, ev1) := delete_file_safely env video.banner_path s.files
    if env.commitOk then
      ⟨.redirect 303 "/admin", ⟨s.db.filter (fun w => !(w.id == video_id)), files1⟩,
        ev1 ++ [.dbCommit]⟩
    else
      ⟨.err ⟨500, "Failed to delete video"⟩, ⟨s.db, files1⟩, ev1⟩

/-- The JSON body of `get_video_api` (src/main.py:311-334); timestamps
and the outer status wrapper are omitted. -/
structure VideoJson where
  id : Nat
  title : String
  description : Option String
  hashtags : List String
  streamtape_url : String
  streamtape_id : String
  embed_url : String
  banner_url : String
  watch_url : String
deriving Repr, DecidableEq

/-- Model of `get_video_api` (src/main.py:311-334): 404 on a missing id, else the
record's fields plus the derived `hashtag_list` and `embed_url`. -/
def get_video_api (db : List Video) (video_id : Nat) :
    Except HTTPError VideoJson :=
  match findVideo db video_id with
  | none => .error ⟨404, "Video not found"⟩
  | some v =>
    .ok { id := v.id
          title := v.title
          description := v.description
          hashtags := v.hashtag_list
          streamtape_url := v.streamtape_url
          streamtape_id := v.streamtape_id
          embed_url := v.embed_url
          banner_url := "/" ++ v.banner_path
          watch_url := "/watch/" ++ toString v.id }

/-- Written from the claim wording (spec §4.4 extraction rule), to be
compared with `extract_streamtape_id`: the path component immediately
following the FIRST occurrence of `/e/` (up to the next `/`) when the URL
contains `/e/`; otherwise the last NON-EMPTY `/`-separated segment with
stray slash characters stripped; the sentinel `"invalid_id"` whenever
neither rule yields a value. -/
def extractEmbedId_claim (url : String) : String :=
  let r :=
    if pyIn "/e/" url then
      (pySplit ((pySplit url "/e/").getD 1 "") "/").headD ""
    else
      pyReplace (((pySplit url "/").filter (fun t => ¬ t = "")).getLastD "") "/" ""
  if r = "" then "invalid_id" else r

/-- Written from the claim wording for the derived hashtag list: the
comma-split sequence of trimmed entries with empty entries dropped,
order preserved; `[]` for a missing value. -/
def hashtagListSpec : Option String → List String
  | none => []
  | some h => ((pySplit h ",").map pyStrip).filter (fun t => ¬ t = "")

end StreamHub

namespace StreamHub

example : extract_streamtape_id "https://streamtape.com/e/ABC123/" = "ABC123" := by decide

example : extract_streamtape_id "https://streamtape.com/ABC123" = "ABC123" := by decide

example : extract_streamtape_id "https://streamtape.com/ABC123/" = "" := by decide

example : extract_streamtape_id "https://streamtape.com/e/AAA/e/BBB/" = "BBB" := by decide

example : extract_streamtape_id "https://streamtape.com/e//" = "" := by decide

example : extract_streamtape_id "" = "" := by decide

example : pyStrip "  a b\t\n" = "a b" := by decide

example : validate_form_input "  " "https://streamtape.com/x" =
    some ⟨400, "Title is required"⟩ := by decide

example : validate_form_input "t" "https://example.com/x" =
    some ⟨400, "Invalid Streamtape URL - must contain streamtape.com"⟩ := by decide

example : validate_form_input " t " "https://streamtape.com/x" = none := by decide

example :
    ({ id := 1, title := "t", description := none, hashtags := some "a, b,, c ",
       streamtape_url := "u", streamtape_id := "i", banner_path := "p",
       created_at := 0, updated_at := 0 } : Video).hashtag_list
      = ["a", "b", "c"] := by decide

end StreamHub

namespace StreamHub

/-! ### Claim C3: embed-id extraction -/

/-- C3 counterexample.  The claim says the else-branch returns the last
NON-EMPTY path segment, and that it is the segment after the FIRST
`/e/`; the code takes `url.split('/e/')[-1]` (after the LAST `/e/`) and
`url.split('/')[-1]` (the last segment even when empty), and its
`"invalid_id"` fallback is unreachable.  On
`"https://streamtape.com/ABC123/"` the code yields `""` where the claim
demands `"ABC123"`, and on `"https://streamtape.com/e/AAA/e/BBB/"` the
code yields `"BBB"` where the claim demands `"AAA"`. -/
theorem c3_counterexample :
    extract_streamtape_id "https://streamtape.com/ABC123/" = ""
    ∧ extractEmbedId_claim "https://streamtape.com/ABC123/" = "ABC123"
    ∧ extract_streamtape_id "https://streamtape.com/e/AAA/e/BBB/" = "BBB"
    ∧ extractEmbedId_claim "https://streamtape.com/e/AAA/e/BBB/" = "AAA" := by
  decide

/-- C3 amended: when the URL contains `/e/` the result is the component
after the LAST occurrence of `/e/` up to the next `/`; otherwise it is
the last (possibly empty) `/`-separated piece with slash characters
stripped (a no-op).  The two positive examples of the claim do hold,
and a URL with no extractable segment yields `""`, never the sentinel. -/
theorem c3_amended (url : String) :
    (pyIn "/e/" url = true →
      extract_streamtape_id url = (pySplit ((pySplit url "/e/").getLastD "") "/").headD "")
    ∧ (pyIn "/e/" url = false →
      extract_streamtape_id url = pyReplace ((pySplit url "/").getLastD "") "/" "")
    ∧ extract_streamtape_id "https://streamtape.com/e/ABC123/" = "ABC123"
    ∧ extract_streamtape_id "https://streamtape.com/ABC123" = "ABC123"
    ∧ extract_streamtape_id "" = "" := by
  refine ⟨fun h => ?_, fun h => ?_, by decide, by decide, by decide⟩
  · simp [extract_streamtape_id, h]
  · simp [extract_streamtape_id, h]

/-- Witness for `c3_amended` at a concrete URL. -/
theorem c3_amended_witness :
    extract_streamtape_id "https://streamtape.com/e/XY/" =
      (pySplit ((pySplit "https://streamtape.com/e/XY/" "/e/").getLastD "") "/").headD "" :=
  (c3_amended "https://streamtape.com/e/XY/").1 (by decide)

/-! ### Claim C9: derived hashtag list -/

/-- C9: `hashtag_list` is the comma-split sequence of trimmed entries
with empty/whitespace-only entries dropped, order preserved; a missing
(`none`) or empty stored value yields `[]`; `"a, b,, c "` yields
`["a","b","c"]`. -/
theorem c9_hashtags :
    (∀ v : Video, v.hashtag_list = hashtagListSpec v.hashtags)
    ∧ (∀ v : Video, v.hashtags = some "a, b,, c " → v.hashtag_list = ["a", "b", "c"])
    ∧ (∀ v : Video, (v.hashtags = none ∨ v.hashtags = some "") → v.hashtag_list = []) := by
  have key : ∀ v : Video, v.hashtag_list = hashtagListSpec v.hashtags := by
    intro v
    cases hv : v.hashtags with
    | none => simp [Video.hashtag_list, hashtagListSpec, hv]
    | some h =>
      simp only [Video.hashtag_list, hashtagListSpec, hv]
      by_cases hh : h = ""
      · subst hh; decide
      · rw [if_neg hh]
  refine ⟨key, fun v hv => ?_, fun v hv => ?_⟩
  · rw [key, hv]; decide
  · rcases hv with hv | hv <;> rw [key, hv] <;> decide

/-- Witness for `c9_hashtags` at a concrete record. -/
theorem c9_hashtags_witness :
    ({ id := 1, title := "t", description := none, hashtags := some "a, b,, c ",
       streamtape_url := "u", streamtape_id := "i", banner_path := "p",
       created_at := 0, updated_at := 0 } : Video).hashtag_list = ["a", "b", "c"] :=
  c9_hashtags.2.1 _ rfl

/-! ### Claim C10: derived embed URL -/

/-- C10: `embed_url` is `"https://streamtape.com/e/" ++ streamtape_id ++ "/"`,
computed purely from the stored `streamtape_id` (hence independent of the
stored `streamtape_url`), and this is what the JSON endpoint exposes; a
record whose `streamtape_url` is not an `/e/`-form URL gets a rewritten
`embed_url` different from its `streamtape_url`. -/
theorem c10_embed :
    (∀ v : Video, v.embed_url = "https://streamtape.com/e/" ++ v.streamtape_id ++ "/")
    ∧ (∀ v w : Video, v.streamtape_id = w.streamtape_id → v.embed_url = w.embed_url)
    ∧ (∀ (db : List Video) (vid : Nat) (v : Video), findVideo db vid = some v →
        get_video_api db vid = .ok
          { id := v.id, title := v.title, description := v.description,
            hashtags := v.hashtag_list, streamtape_url := v.streamtape_url,
            streamtape_id := v.streamtape_id,
            embed_url := "https://streamtape.com/e/" ++ v.streamtape_id ++ "/",
            banner_url := "/" ++ v.banner_path, watch_url := "/watch/" ++ toString v.id })
    ∧ ({ id := 7, title := "t", description := none, hashtags := none,
         streamtape_url := "https://streamtape.com/v/XYZ/file-title", streamtape_id := "XYZ",
         banner_path := "p", created_at := 0, updated_at := 0 } : Video).embed_url ≠
      ({ id := 7, title := "t", description := none, hashtags := none,
         streamtape_url := "https://streamtape.com/v/XYZ/file-title", streamtape_id := "XYZ",
         banner_path := "p", created_at := 0, updated_at := 0 } : Video).streamtape_url := by
  refine ⟨fun v => rfl, fun v w h => ?_, fun db vid v h => ?_, by decide⟩
  · simp [Video.embed_url, h]
  · simp [get_video_api, h, Video.embed_url]

/-- Witness for `c10_embed`: two records sharing a `streamtape_id` but
with different stored URLs expose the same `embed_url`. -/
theorem c10_embed_witness :
    ({ id := 1, title := "a", description := none, hashtags := none,
       streamtape_url := "https://streamtape.com/v/XYZ/file-title", streamtape_id := "XYZ",
       banner_path := "p", created_at := 0, updated_at := 0 } : Video).embed_url =
    ({ id := 2, title := "b", description := none, hashtags := none,
       streamtape_url := "https://streamtape.com/e/XYZ/", streamtape_id := "XYZ",
       banner_path := "q", created_at := 1, updated_at := 1 } : Video).embed_url :=
  c10_embed.2.1 _ _ rfl

end StreamHub

namespace StreamHub

/-! ### Inversion lemmas about the embedded operations -/

/-- The length `pyLen s` is zero exactly for the empty string. -/
lemma pyLen_eq_zero {s : String} : pyLen s = 0 ↔ s = "" := by
  constructor
  · intro h
    apply String.ext
    have hd : s.data = [] := List.length_eq_zero.mp h
    simp [hd]
  · intro h; subst h; rfl

/-- A string append with a non-empty left part is non-empty. -/
lemma str_append_ne_empty (a b : String) (h : a ≠ "") : a ++ b ≠ "" := by
  intro he
  apply h
  apply String.ext
  have hd : (a ++ b).data = ("" : String).data := by rw [he]
  rw [String.data_append] at hd
  have h2 : a.data ++ b.data = [] := hd
  have h3 := List.append_eq_nil.mp h2
  simp [h3.1]

/-- The banner path generated by `save_uploaded_file` is never empty. -/
lemma bannerPath_ne_empty (u e : String) :
    ("static/banners/" ++ u ++ "." ++ e : String) ≠ "" :=
  str_append_ne_empty _ _ (str_append_ne_empty _ _ (str_append_ne_empty _ _ (by decide)))

/-- Inversion of a successful `save_uploaded_file`. -/
lemma save_saved_inv {env : Env} {f : UploadFileM} {files : List String}
    {p : String} {fl : List String} {ev : List Event}
    (h : save_uploaded_file env f files = .saved p fl ev) :
    p = "static/banners/" ++ env.uuid ++ "." ++ file_extension f.filename
    ∧ fl = (if p ∈ files then files else files ++ [p])
    ∧ ev = [Event.fileWrite p]
    ∧ f.filename ≠ "" ∧ env.writeOk = true := by
  simp only [save_uploaded_file] at h
  split at h
  · simp at h
  · split at h
    · simp at h
    · split at h
      · rename_i hfn hct hw
        simp only [SaveOutcome.saved.injEq] at h
        obtain ⟨hp, hfl, hev⟩ := h
        subst hp
        exact ⟨rfl, hfl.symm, hev.symm, hfn, hw⟩
      · simp at h

/-- A successful save leaves its path on the filesystem. -/
lemma save_saved_mem {env : Env} {f : UploadFileM} {files : List String}
    {p : String} {fl : List String} {ev : List Event}
    (h : save_uploaded_file env f files = .saved p fl ev) : p ∈ fl := by
  obtain ⟨-, hfl, -⟩ := save_saved_inv h
  subst hfl
  by_cases hmem : p ∈ files <;> simp [hmem]

/-- The generated path is non-empty. -/
lemma save_saved_ne_empty {env : Env} {f : UploadFileM} {files : List String}
    {p : String} {fl : List String} {ev : List Event}
    (h : save_uploaded_file env f files = .saved p fl ev) : p ≠ "" := by
  obtain ⟨hp, -, -⟩ := save_saved_inv h
  subst hp
  exact bannerPath_ne_empty _ _

/-- Inversion of a passing `validate_form_input`. -/
lemma validate_none_inv {t u : String} (h : validate_form_input t u = none) :
    pyStrip t ≠ "" ∧ pyLen (pyStrip t) ≤ 255 ∧ pyIn "streamtape.com" u = true := by
  simp only [validate_form_input] at h
  split at h
  · simp at h
  · split at h
    · simp at h
    · split at h
      · simp at h
      · rename_i h1 h2 h3
        refine ⟨?_, ?_, ?_⟩
        · intro h0
          exact h1 (by simp [pyLen_eq_zero.mpr h0])
        · exact Nat.not_lt.mp h2
        · simp at h3
          exact h3.2

end StreamHub

namespace StreamHub

/-! ### Claim C2: upload compensation -/

/-- C2: when the banner write succeeds (returning path `p`) and the
subsequent commit fails, the upload fails with a 500, the trace is
exactly the write of `p` followed by the compensating delete of `p`
(before the error is surfaced), the table is unchanged, and — when
`os.remove` succeeds — `p` is no longer on storage. -/
theorem c2_upload_compensation (env : Env) (t d hs u : String) (b : UploadFileM)
    (s : SysState) (p : String) (fl : List String) (ev : List Event)
    (hval : validate_form_input t u = none)
    (hsave : save_uploaded_file env b s.files = .saved p fl ev)
    (hcommit : env.commitOk = false) :
    (upload_video env t d hs u b s).result = .err ⟨500, "Failed to upload video"⟩
    ∧ (upload_video env t d hs u b s).events = [Event.fileWrite p, Event.fileDelete p]
    ∧ (upload_video env t d hs u b s).state.db = s.db
    ∧ (env.removeOk = true → p ∉ (upload_video env t d hs u b s).state.files) := by
  have hpne : p ≠ "" := save_saved_ne_empty hsave
  have hpmem : p ∈ fl := save_saved_mem hsave
  have hev : ev = [Event.fileWrite p] := (save_saved_inv hsave).2.2.1
  have hdel : delete_file_safely env p fl =
      (if env.removeOk then fl.filter (fun q => ¬ q = p) else fl, [Event.fileDelete p]) := by
    rw [delete_file_safely, if_pos ⟨hpne, hpmem⟩]
  simp only [upload_video, hval, hsave, hcommit, hdel, hev, Bool.false_eq_true, if_false]
  refine ⟨by trivial, by trivial, by trivial, ?_⟩
  intro hr
  simp [hr, List.mem_filter]

/-- Witness for `c2_upload_compensation` at a concrete run. -/
theorem c2_upload_compensation_witness :
    (upload_video ⟨"11111111", true, false, true, 5⟩ "T" "" "" "https://streamtape.com/e/ABC/"
        ⟨"b.png", "image/png"⟩ ⟨[], []⟩).result = .err ⟨500, "Failed to upload video"⟩
    ∧ (upload_video ⟨"11111111", true, false, true, 5⟩ "T" "" "" "https://streamtape.com/e/ABC/"
        ⟨"b.png", "image/png"⟩ ⟨[], []⟩).events =
        [Event.fileWrite "static/banners/11111111.png",
         Event.fileDelete "static/banners/11111111.png"]
    ∧ (upload_video ⟨"11111111", true, false, true, 5⟩ "T" "" "" "https://streamtape.com/e/ABC/"
        ⟨"b.png", "image/png"⟩ ⟨[], []⟩).state.db = ([] : List Video)
    ∧ ((⟨"11111111", true, false, true, 5⟩ : Env).removeOk = true →
        "static/banners/11111111.png" ∉
          (upload_video ⟨"11111111", true, false, true, 5⟩ "T" "" ""
            "https://streamtape.com/e/ABC/" ⟨"b.png", "image/png"⟩ ⟨[], []⟩).state.files) :=
  c2_upload_compensation ⟨"11111111", true, false, true, 5⟩ "T" "" ""
    "https://streamtape.com/e/ABC/" ⟨"b.png", "image/png"⟩ ⟨[], []⟩
    "static/banners/11111111.png" ["static/banners/11111111.png"]
    [Event.fileWrite "static/banners/11111111.png"] (by decide) (by decide) rfl

end StreamHub

namespace StreamHub

/-! ### Claim C7: update aborts cleanly when the file store fails -/

/-- C7: in an update of an existing record that supplies a new banner
file, a failure of `save_uploaded_file` aborts the request with exactly
the file store error, and the whole state — the persisted record and
the existing banner file — is untouched (the in-session field mutations
are discarded when the session is closed without commit). -/
theorem c7_update_file_abort (env : Env) (vid : Nat) (t d hs u : String)
    (b : UploadFileM) (s : SysState) (v0 : Video) (e : HTTPError)
    (hfind : findVideo s.db vid = some v0)
    (hval : validate_form_input t u = none)
    (hb : b.filename ≠ "")
    (hsave : save_uploaded_file env b s.files = .fail e) :
    update_video env vid t d hs u (some b) s = ⟨.err e, s, []⟩ := by
  simp only [update_video, hfind, hval, hsave, if_pos hb]

/-- Witness for `c7_update_file_abort`: a failing write (`writeOk = false`)
leaves the state untouched and surfaces the 500 from the file store. -/
theorem c7_update_file_abort_witness :
    update_video ⟨"11111111", false, true, true, 5⟩ 1 "T" "" ""
        "https://streamtape.com/e/ABC/" (some ⟨"b.png", "image/png"⟩)
        ⟨[⟨1, "T", none, none, "https://streamtape.com/e/ABC/", "ABC",
           "static/banners/old.jpg", 0, 0⟩], ["static/banners/old.jpg"]⟩ =
      ⟨.err ⟨500, "Failed to save file"⟩,
       ⟨[⟨1, "T", none, none, "https://streamtape.com/e/ABC/", "ABC",
          "static/banners/old.jpg", 0, 0⟩], ["static/banners/old.jpg"]⟩, []⟩ :=
  c7_update_file_abort ⟨"11111111", false, true, true, 5⟩ 1 "T" "" ""
    "https://streamtape.com/e/ABC/" ⟨"b.png", "image/png"⟩
    ⟨[⟨1, "T", none, none, "https://streamtape.com/e/ABC/", "ABC",
       "static/banners/old.jpg", 0, 0⟩], ["static/banners/old.jpg"]⟩
    ⟨1, "T", none, none, "https://streamtape.com/e/ABC/", "ABC",
     "static/banners/old.jpg", 0, 0⟩
    ⟨500, "Failed to save file"⟩
    (by decide) (by decide) (by decide) (by decide)

/-! ### Claim C8: delete semantics -/

/-- C8: deleting a missing id yields the 404 and changes nothing; deleting
an existing id (with a working commit) removes the row from the table —
for EVERY value of `removeOk`, i.e. a failing banner-file removal never
prevents the row deletion — and, when `os.remove` works, the banner file
is gone from storage afterwards. -/
theorem c8_delete_semantics :
    (∀ (env : Env) (vid : Nat) (s : SysState), findVideo s.db vid = none →
      delete_video env vid s = ⟨.err ⟨404, "Video not found"⟩, s, []⟩)
    ∧ (∀ (env : Env) (vid : Nat) (s : SysState) (v : Video),
        findVideo s.db vid = some v → env.commitOk = true →
        (delete_video env vid s).result = .redirect 303 "/admin"
        ∧ (delete_video env vid s).state.db = s.db.filter (fun w => !(w.id == vid))
        ∧ (env.removeOk = true → v.banner_path ≠ "" →
            v.banner_path ∉ (delete_video env vid s).state.files)) := by
  constructor
  · intro env vid s h
    simp only [delete_video, h]
  · intro env vid s v hf hc
    by_cases hmem : v.banner_path ≠ "" ∧ v.banner_path ∈ s.files
    · have hdel : delete_file_safely env v.banner_path s.files =
          (if env.removeOk then s.files.filter (fun q => ¬ q = v.banner_path) else s.files,
           [Event.fileDelete v.banner_path]) := by
        rw [delete_file_safely, if_pos hmem]
      simp only [delete_video, hf, hdel, hc, if_true]
      refine ⟨by trivial, by trivial, ?_⟩
      intro hr _
      simp [hr, List.mem_filter]
    · have hdel : delete_file_safely env v.banner_path s.files = (s.files, []) := by
        rw [delete_file_safely, if_neg hmem]
      simp only [delete_video, hf, hdel, hc, if_true]
      refine ⟨by trivial, by trivial, ?_⟩
      intro _ hbp
      intro habs
      exact hmem ⟨hbp, habs⟩

/-- Witness for `c8_delete_semantics`: deleting an existing record while
`os.remove` fails (`removeOk = false`) still removes the row. -/
theorem c8_delete_semantics_witness :
    (delete_video ⟨"u", true, true, false, 5⟩ 1
        ⟨[⟨1, "T", none, none, "https://streamtape.com/e/ABC/", "ABC",
           "static/banners/old.jpg", 0, 0⟩], ["static/banners/old.jpg"]⟩).result =
        .redirect 303 "/admin"
    ∧ (delete_video ⟨"u", true, true, false, 5⟩ 1
        ⟨[⟨1, "T", none, none, "https://streamtape.com/e/ABC/", "ABC",
           "static/banners/old.jpg", 0, 0⟩], ["static/banners/old.jpg"]⟩).state.db =
        ([⟨1, "T", none, none, "https://streamtape.com/e/ABC/", "ABC",
           "static/banners/old.jpg", 0, 0⟩] : List Video).filter (fun w => !(w.id == 1))
    ∧ ((⟨"u", true, true, false, 5⟩ : Env).removeOk = true →
        (⟨1, "T", none, none, "https://streamtape.com/e/ABC/", "ABC",
          "static/banners/old.jpg", 0, 0⟩ : Video).banner_path ≠ "" →
        (⟨1, "T", none, none, "https://streamtape.com/e/ABC/", "ABC",
          "static/banners/old.jpg", 0, 0⟩ : Video).banner_path ∉
          (delete_video ⟨"u", true, true, false, 5⟩ 1
            ⟨[⟨1, "T", none, none, "https://streamtape.com/e/ABC/", "ABC",
               "static/banners/old.jpg", 0, 0⟩], ["static/banners/old.jpg"]⟩).state.files) :=
  c8_delete_semantics.2 ⟨"u", true, true, false, 5⟩ 1
    ⟨[⟨1, "T", none, none, "https://streamtape.com/e/ABC/", "ABC",
       "static/banners/old.jpg", 0, 0⟩], ["static/banners/old.jpg"]⟩
    ⟨1, "T", none, none, "https://streamtape.com/e/ABC/", "ABC",
     "static/banners/old.jpg", 0, 0⟩ (by decide) rfl

end StreamHub

namespace StreamHub

/-- Inversion of a successful `upload_video`: validation passed, the file
write succeeded, the commit succeeded, and the outcome appends exactly
the new record built from the trimmed inputs. -/
lemma upload_ok_inv {env : Env} {t d hs u : String} {b : UploadFileM} {s : SysState}
    (h : (upload_video env t d hs u b s).result = .redirect 303 "/admin") :
    ∃ (p : String) (fl : List String) (ev : List Event),
      validate_form_input t u = none
      ∧ save_uploaded_file env b s.files = .saved p fl ev
      ∧ env.commitOk = true
      ∧ upload_video env t d hs u b s =
          ⟨.redirect 303 "/admin",
           ⟨s.db ++ [{ id := nextId s.db, title := pyStrip t, description := optStrip d,
                       hashtags := optStrip hs, streamtape_url := pyStrip u,
                       streamtape_id := extract_streamtape_id u, banner_path := p,
                       created_at := env.now, updated_at := env.now }], fl⟩,
           ev ++ [Event.dbCommit]⟩ := by
  cases hval : validate_form_input t u with
  | some e => simp [upload_video, hval] at h
  | none =>
    cases hsave : save_uploaded_file env b s.files with
    | fail e => simp [upload_video, hval, hsave] at h
    | saved p fl ev =>
      cases hc : env.commitOk with
      | false => simp [upload_video, hval, hsave, hc] at h
      | true =>
        exact ⟨p, fl, ev, rfl, rfl, rfl, by simp [upload_video, hval, hsave, hc]⟩

end StreamHub

namespace StreamHub

/-! ### Claim C5: validation contract -/

/-- C5: `validate_form_input` fails with the title error exactly when the
trimmed title is empty or longer than 255 characters, and with the URL
error exactly when — the title checks having passed, since they run
first — the URL is empty or lacks the substring `"streamtape.com"`; an
upload failing validation performs no write at all, and a successful
upload persists the trimmed title. -/
theorem c5_validation_contract :
    (∀ t u : String,
      (validate_form_input t u = some ⟨400, "Title is required"⟩ ∨
       validate_form_input t u = some ⟨400, "Title too long (max 255 characters)"⟩)
      ↔ (pyStrip t = "" ∨ 255 < pyLen (pyStrip t)))
    ∧ (∀ t u : String,
      validate_form_input t u = some ⟨400, "Invalid Streamtape URL - must contain streamtape.com"⟩
      ↔ (¬ (pyStrip t = "" ∨ 255 < pyLen (pyStrip t)) ∧
         (u = "" ∨ pyIn "streamtape.com" u = false)))
    ∧ (∀ (env : Env) (t d hs u : String) (b : UploadFileM) (s : SysState) (e : HTTPError),
      validate_form_input t u = some e →
      upload_video env t d hs u b s = ⟨.err e, s, []⟩)
    ∧ (∀ (env : Env) (t d hs u : String) (b : UploadFileM) (s : SysState),
      (upload_video env t d hs u b s).result = .redirect 303 "/admin" →
      ∃ v : Video, (upload_video env t d hs u b s).state.db = s.db ++ [v]
        ∧ v.title = pyStrip t) := by
  have main : ∀ t u : String,
      (pyStrip t = "" → validate_form_input t u = some ⟨400, "Title is required"⟩)
      ∧ (pyStrip t ≠ "" → 255 < pyLen (pyStrip t) →
          validate_form_input t u = some ⟨400, "Title too long (max 255 characters)"⟩)
      ∧ (pyStrip t ≠ "" → ¬ 255 < pyLen (pyStrip t) →
          (u = "" ∨ pyIn "streamtape.com" u = false) →
          validate_form_input t u =
            some ⟨400, "Invalid Streamtape URL - must contain streamtape.com"⟩)
      ∧ (pyStrip t ≠ "" → ¬ 255 < pyLen (pyStrip t) →
          ¬ (u = "" ∨ pyIn "streamtape.com" u = false) →
          validate_form_input t u = none) := by
    intro t u
    refine ⟨?_, ?_, ?_, ?_⟩
    · intro h1
      have ht0 : pyLen (pyStrip t) = 0 := pyLen_eq_zero.mpr h1
      simp [validate_form_input, ht0]
    · intro h1 h2
      have hl : ¬ pyLen (pyStrip t) = 0 := fun h => h1 (pyLen_eq_zero.mp h)
      have ht : ¬ t = "" := fun he => h1 (by rw [he]; rfl)
      simp [validate_form_input, ht, hl, h2]
    · intro h1 h2 h3
      have hl : ¬ pyLen (pyStrip t) = 0 := fun h => h1 (pyLen_eq_zero.mp h)
      have ht : ¬ t = "" := fun he => h1 (by rw [he]; rfl)
      rcases h3 with h3 | h3
      · simp [validate_form_input, ht, hl, h2, h3]
      · simp [validate_form_input, ht, hl, h2, h3]
    · intro h1 h2 h3
      have hl : ¬ pyLen (pyStrip t) = 0 := fun h => h1 (pyLen_eq_zero.mp h)
      have ht : ¬ t = "" := fun he => h1 (by rw [he]; rfl)
      push_neg at h3
      simp [validate_form_input, ht, hl, h2, h3.1, h3.2]
  refine ⟨?_, ?_, ?_, ?_⟩
  · intro t u
    constructor
    · rintro (h | h)
      · by_cases h1 : pyStrip t = ""
        · exact Or.inl h1
        · by_cases h2 : 255 < pyLen (pyStrip t)
          · exact Or.inr h2
          · exfalso
            by_cases h3 : (u = "" ∨ pyIn "streamtape.com" u = false)
            · rw [(main t u).2.2.1 h1 h2 h3] at h
              simp at h
            · rw [(main t u).2.2.2 h1 h2 h3] at h
              simp at h
      · by_cases h1 : pyStrip t = ""
        · exact Or.inl h1
        · by_cases h2 : 255 < pyLen (pyStrip t)
          · exact Or.inr h2
          · exfalso
            by_cases h3 : (u = "" ∨ pyIn "streamtape.com" u = false)
            · rw [(main t u).2.2.1 h1 h2 h3] at h
              simp at h
            · rw [(main t u).2.2.2 h1 h2 h3] at h
              simp at h
    · rintro (h1 | h2)
      · exact Or.inl ((main t u).1 h1)
      · by_cases h1 : pyStrip t = ""
        · exact Or.inl ((main t u).1 h1)
        · exact Or.inr ((main t u).2.1 h1 h2)
  · intro t u
    constructor
    · intro h
      by_cases h1 : pyStrip t = ""
      · rw [(main t u).1 h1] at h
        simp at h
      · by_cases h2 : 255 < pyLen (pyStrip t)
        · rw [(main t u).2.1 h1 h2] at h
          simp at h
        · by_cases h3 : (u = "" ∨ pyIn "streamtape.com" u = false)
          · exact ⟨fun hcon => hcon.elim h1 h2, h3⟩
          · rw [(main t u).2.2.2 h1 h2 h3] at h
            simp at h
    · rintro ⟨hno, h3⟩
      push_neg at hno
      exact (main t u).2.2.1 hno.1 (Nat.not_lt.mpr hno.2) h3
  · intro env t d hs u b s e h
    simp [upload_video, h]
  · intro env t d hs u b s h
    obtain ⟨p, fl, ev, hval, hsave, hc, heq⟩ := upload_ok_inv h
    rw [heq]
    exact ⟨_, rfl, rfl⟩

/-- Witness for `c5_validation_contract`: a whitespace-only title is
rejected with no storage write. -/
theorem c5_validation_contract_witness :
    upload_video ⟨"u", true, true, true, 0⟩ " " "" "" "https://streamtape.com/x"
        ⟨"f.png", "image/png"⟩ ⟨[], ["keep.jpg"]⟩ =
      ⟨.err ⟨400, "Title is required"⟩, ⟨[], ["keep.jpg"]⟩, []⟩ :=
  c5_validation_contract.2.2.1 ⟨"u", true, true, true, 0⟩ " " "" ""
    "https://streamtape.com/x" ⟨"f.png", "image/png"⟩ ⟨[], ["keep.jpg"]⟩
    ⟨400, "Title is required"⟩ (by decide)

end StreamHub

namespace StreamHub

/-- The record found by id carries that id. -/
lemma findVideo_id {db : List Video} {vid : Nat} {v : Video}
    (h : findVideo db vid = some v) : v.id = vid := by
  have hp := List.find?_some h
  simpa using hp

/-- Replacing the row in a table where `vid` resolves to `v0` makes the
lookup return the replacement (whose id is `vid`). -/
lemma findVideo_replace {db : List Video} {vid : Nat} {v0 : Video} (draft : Video)
    (hf : findVideo db vid = some v0) (hid : draft.id = vid) :
    findVideo (replaceVideo db draft) vid = some draft := by
  induction db with
  | nil => simp [findVideo] at hf
  | cons w rest ih =>
    by_cases hw : w.id = vid
    · have h1 : (if w.id == draft.id then draft else w) = draft :=
        if_pos (beq_iff_eq.mpr (by rw [hid, hw]))
      show List.find? (fun x => x.id == vid)
          ((if w.id == draft.id then draft else w) :: replaceVideo rest draft) = some draft
      rw [h1]
      exact List.find?_cons_of_pos _ (beq_iff_eq.mpr hid)
    · have h1 : (if w.id == draft.id then draft else w) = w :=
        if_neg (by simp [hid, hw])
      have htail : findVideo rest vid = some v0 := by
        unfold findVideo at hf
        rwa [List.find?_cons_of_neg _ (by simp [hw])] at hf
      have hrec := ih htail
      show List.find? (fun x => x.id == vid)
          ((if w.id == draft.id then draft else w) :: replaceVideo rest draft) = some draft
      rw [h1, List.find?_cons_of_neg _ (by simp [hw])]
      exact hrec

/-- The helper `commitUpdate` redirects exactly when the commit succeeds. -/
lemma commitUpdate_ok_iff {env : Env} {s : SysState} {draft : Video}
    {files : List String} {ev : List Event} :
    (commitUpdate env s draft files ev).result = .redirect 303 "/admin" ↔
      env.commitOk = true := by
  cases hc : env.commitOk <;> simp [commitUpdate, hc]

/-- Shape of a successful `commitUpdate`. -/
lemma commitUpdate_ok {env : Env} {s : SysState} {draft : Video}
    {files : List String} {ev : List Event} (hc : env.commitOk = true) :
    commitUpdate env s draft files ev =
      ⟨.redirect 303 "/admin", ⟨replaceVideo s.db draft, files⟩, ev ++ [Event.dbCommit]⟩ := by
  simp [commitUpdate, hc]

end StreamHub

namespace StreamHub

/-! ### Claim C4: invariants of persisted records -/

/-- C4 counterexample.  The claim demands a non-empty `streamtape_id`
equal to the extraction applied to the STORED `streamtape_url`; but the
code computes the id from the raw submitted URL and can persist the
empty string: uploading with URL `"https://streamtape.com/e//"` (which
passes validation) commits a record whose `streamtape_id` is `""` — not
non-empty and not the `"invalid_id"` sentinel the spec promises as a
fallback. -/
theorem c4_counterexample :
    upload_video ⟨"11111111", true, true, true, 5⟩ "T" "" "" "https://streamtape.com/e//"
        ⟨"b.png", "image/png"⟩ ⟨[], []⟩ =
      ⟨.redirect 303 "/admin",
       ⟨[⟨1, "T", none, none, "https://streamtape.com/e//", "",
          "static/banners/11111111.png", 5, 5⟩],
        ["static/banners/11111111.png"]⟩,
       [Event.fileWrite "static/banners/11111111.png", Event.dbCommit]⟩
    ∧ extract_streamtape_id "https://streamtape.com/e//" = "" := by
  decide

/-- C4 amended: every record persisted by a successful upload or update
has the trimmed, non-empty submitted title, a non-empty `banner_path`
that is on storage at commit time, and a `streamtape_id` equal to the
extraction function applied to the RAW submitted URL — a value that may
be empty (and, when the URL carries surrounding whitespace, may differ
from the extraction of the stored trimmed URL).  The update half assumes
the pre-state record satisfies the banner part of the invariant. -/
theorem c4_amended :
    (∀ (env : Env) (t d hs u : String) (b : UploadFileM) (s : SysState),
      (upload_video env t d hs u b s).result = .redirect 303 "/admin" →
      ∃ v : Video, (upload_video env t d hs u b s).state.db = s.db ++ [v]
        ∧ v.title = pyStrip t ∧ v.title ≠ ""
        ∧ v.banner_path ≠ ""
        ∧ v.banner_path ∈ (upload_video env t d hs u b s).state.files
        ∧ v.streamtape_id = extract_streamtape_id u)
    ∧ (∀ (env : Env) (vid : Nat) (t d hs u : String) (banner : Option UploadFileM)
        (s : SysState) (v0 : Video),
      findVideo s.db vid = some v0 →
      v0.banner_path ≠ "" → v0.banner_path ∈ s.files →
      (update_video env vid t d hs u banner s).result = .redirect 303 "/admin" →
      ∃ v : Video,
        findVideo (update_video env vid t d hs u banner s).state.db vid = some v
        ∧ v.title = pyStrip t ∧ v.title ≠ ""
        ∧ v.banner_path ≠ ""
        ∧ v.banner_path ∈ (update_video env vid t d hs u banner s).state.files
        ∧ v.streamtape_id = extract_streamtape_id u) := by
  constructor
  · intro env t d hs u b s h
    obtain ⟨p, fl, ev, hval, hsave, hc, heq⟩ := upload_ok_inv h
    have htitle : pyStrip t ≠ "" := (validate_none_inv hval).1
    have hpne : p ≠ "" := save_saved_ne_empty hsave
    have hpmem : p ∈ fl := save_saved_mem hsave
    rw [heq]
    exact ⟨_, rfl, rfl, htitle, hpne, hpmem, rfl⟩
  · intro env vid t d hs u banner s v0 hf hbp hbmem h
    cases hval : validate_form_input t u with
    | some e => simp [update_video, hf, hval] at h
    | none =>
      have htitle : pyStrip t ≠ "" := (validate_none_inv hval).1
      have hid0 : v0.id = vid := findVideo_id hf
      cases banner with
      | none =>
        simp only [update_video, hf, hval] at h ⊢
        have hc : env.commitOk = true := commitUpdate_ok_iff.mp h
        rw [commitUpdate_ok hc]
        refine ⟨_, findVideo_replace _ hf hid0, rfl, htitle, hbp, hbmem, rfl⟩
      | some b =>
        by_cases hbf : b.filename ≠ ""
        · cases hsave : save_uploaded_file env b s.files with
          | fail e => simp [update_video, hf, hval, if_pos hbf, hsave] at h
          | saved np fl1 ev1 =>
            have hnp_ne : np ≠ "" := save_saved_ne_empty hsave
            have hnp_mem : np ∈ fl1 := save_saved_mem hsave
            have hold_mem : v0.banner_path ∈ fl1 := by
              obtain ⟨-, hfl, -⟩ := save_saved_inv hsave
              subst hfl
              by_cases hmem : np ∈ s.files
              · simpa [hmem] using hbmem
              · simp [hmem, List.mem_append]
                exact Or.inl hbmem
            by_cases hdiff : v0.banner_path ≠ np
            · have hdel : delete_file_safely env v0.banner_path fl1 =
                  (if env.removeOk then fl1.filter (fun q => ¬ q = v0.banner_path) else fl1,
                   [Event.fileDelete v0.banner_path]) := by
                rw [delete_file_safely, if_pos ⟨hbp, hold_mem⟩]
              have hne2 : ¬ np = v0.banner_path := fun he => hdiff he.symm
              have hnp_in2 : np ∈ (if env.removeOk then
                  fl1.filter (fun q => ¬ q = v0.banner_path) else fl1) := by
                cases hr : env.removeOk with
                | true =>
                  simp only [if_true]
                  exact List.mem_filter.mpr ⟨hnp_mem, by simp [hne2]⟩
                | false => simpa using hnp_mem
              simp only [update_video, hf, hval, if_pos hbf, hsave, if_pos hdiff, hdel] at h ⊢
              have hc : env.commitOk = true := commitUpdate_ok_iff.mp h
              rw [commitUpdate_ok hc]
              refine ⟨_, findVideo_replace _ hf hid0, rfl, htitle, hnp_ne, hnp_in2, rfl⟩
            · simp only [update_video, hf, hval, if_pos hbf, hsave, if_neg hdiff] at h ⊢
              have hc : env.commitOk = true := commitUpdate_ok_iff.mp h
              rw [commitUpdate_ok hc]
              refine ⟨_, findVideo_replace _ hf hid0, rfl, htitle, hnp_ne, hnp_mem, rfl⟩
        · simp only [update_video, hf, hval, if_neg hbf] at h ⊢
          have hc : env.commitOk = true := commitUpdate_ok_iff.mp h
          rw [commitUpdate_ok hc]
          refine ⟨_, findVideo_replace _ hf hid0, rfl, htitle, hbp, hbmem, rfl⟩

/-- Witness for `c4_amended` at a concrete successful upload. -/
theorem c4_amended_witness :
    ∃ v : Video,
      (upload_video ⟨"22222222", true, true, true, 9⟩ " My Title " "" ""
          "https://streamtape.com/e/QQ/" ⟨"c.png", "image/png"⟩ ⟨[], []⟩).state.db =
        ([] : List Video) ++ [v]
      ∧ v.title = pyStrip " My Title " ∧ v.title ≠ ""
      ∧ v.banner_path ≠ ""
      ∧ v.banner_path ∈ (upload_video ⟨"22222222", true, true, true, 9⟩ " My Title " "" ""
          "https://streamtape.com/e/QQ/" ⟨"c.png", "image/png"⟩ ⟨[], []⟩).state.files
      ∧ v.streamtape_id = extract_streamtape_id "https://streamtape.com/e/QQ/" :=
  c4_amended.1 ⟨"22222222", true, true, true, 9⟩ " My Title " "" ""
    "https://streamtape.com/e/QQ/" ⟨"c.png", "image/png"⟩ ⟨[], []⟩ (by decide)

end StreamHub

namespace StreamHub

/-- When no usable banner file is supplied (absent, or a falsy empty
filename), `update_video` reduces to lookup, validation and the commit of
the field draft — no file-manager call at all. -/
lemma update_nofile (env : Env) (vid : Nat) (t d hs u : String)
    (banner : Option UploadFileM) (s : SysState)
    (hb : banner = none ∨ ∃ b, banner = some b ∧ b.filename = "") :
    update_video env vid t d hs u banner s =
      match findVideo s.db vid with
      | none => ⟨.err ⟨404, "Video not found"⟩, s, []⟩
      | some video =>
        match validate_form_input t u with
        | some e => ⟨.err e, s, []⟩
        | none =>
          commitUpdate env s
            { video with
              title := pyStrip t
              description := optStrip d
              hashtags := optStrip hs
              streamtape_url := pyStrip u
              streamtape_id := extract_streamtape_id u
              updated_at := env.now }
            s.files [] := by
  rcases hb with rfl | ⟨b, rfl, hbf⟩
  · cases hf : findVideo s.db vid with
    | none => simp [update_video, hf]
    | some v0 =>
      cases hv : validate_form_input t u with
      | some e => simp [update_video, hf, hv]
      | none => simp [update_video, hf, hv]
  · cases hf : findVideo s.db vid with
    | none => simp [update_video, hf]
    | some v0 =>
      cases hv : validate_form_input t u with
      | some e => simp [update_video, hf, hv]
      | none =>
        have hnb : ¬ (b.filename ≠ "") := by simp [hbf]
        simp [update_video, hf, hv, hnb]

/-- The record a successful update persists: all fields of the draft, the
original id and creation timestamp, and some banner path. -/
lemma update_ok_record {env : Env} {vid : Nat} {t d hs u : String}
    {banner : Option UploadFileM} {s : SysState} {v0 : Video}
    (hf : findVideo s.db vid = some v0)
    (h : (update_video env vid t d hs u banner s).result = .redirect 303 "/admin") :
    ∃ bp : String,
      findVideo (update_video env vid t d hs u banner s).state.db vid =
        some { v0 with
               title := pyStrip t
               description := optStrip d
               hashtags := optStrip hs
               streamtape_url := pyStrip u
               streamtape_id := extract_streamtape_id u
               banner_path := bp
               updated_at := env.now }
      ∧ ((banner = none ∨ ∃ b, banner = some b ∧ b.filename = "") → bp = v0.banner_path) := by
  have hid0 : v0.id = vid := findVideo_id hf
  cases hval : validate_form_input t u with
  | some e => simp [update_video, hf, hval] at h
  | none =>
    cases banner with
    | none =>
      simp only [update_video, hf, hval] at h ⊢
      have hc : env.commitOk = true := commitUpdate_ok_iff.mp h
      rw [commitUpdate_ok hc]
      exact ⟨v0.banner_path, findVideo_replace _ hf hid0, fun _ => rfl⟩
    | some b =>
      by_cases hbf : b.filename ≠ ""
      · cases hsave : save_uploaded_file env b s.files with
        | fail e => simp [update_video, hf, hval, if_pos hbf, hsave] at h
        | saved np fl1 ev1 =>
          cases hpair : (if v0.banner_path ≠ np then
              delete_file_safely env v0.banner_path fl1 else (fl1, [])) with
          | mk fl2 ev2 =>
            simp only [update_video, hf, hval, if_pos hbf, hsave, hpair] at h ⊢
            have hc : env.commitOk = true := commitUpdate_ok_iff.mp h
            rw [commitUpdate_ok hc]
            refine ⟨np, findVideo_replace _ hf hid0, ?_⟩
            rintro (habs | ⟨b2, hb2, hbf2⟩)
            · exact absurd habs (by simp)
            · rw [Option.some.injEq] at hb2
              exact absurd (hb2 ▸ hbf2) hbf
      · simp only [update_video, hf, hval, if_neg hbf] at h ⊢
        have hc : env.commitOk = true := commitUpdate_ok_iff.mp h
        rw [commitUpdate_ok hc]
        exact ⟨v0.banner_path, findVideo_replace _ hf hid0, fun _ => rfl⟩

end StreamHub

namespace StreamHub

/-! ### Claim C6: frame properties of update -/

/-- C6: an update that supplies no new banner file (no file, or a file
with a falsy empty filename) leaves the filesystem untouched, performs no
file deletion (and no write), and — if it commits — keeps the record's
`banner_path`; and every successful update preserves the record's `id`
and `created_at`. -/
theorem c6_update_frame :
    (∀ (env : Env) (vid : Nat) (t d hs u : String) (banner : Option UploadFileM)
        (s : SysState),
      (banner = none ∨ ∃ b, banner = some b ∧ b.filename = "") →
      (update_video env vid t d hs u banner s).state.files = s.files
      ∧ (∀ p, Event.fileDelete p ∉ (update_video env vid t d hs u banner s).events)
      ∧ (∀ p, Event.fileWrite p ∉ (update_video env vid t d hs u banner s).events)
      ∧ (∀ v0, findVideo s.db vid = some v0 →
          (update_video env vid t d hs u banner s).result = .redirect 303 "/admin" →
          ∃ v, findVideo (update_video env vid t d hs u banner s).state.db vid = some v
            ∧ v.banner_path = v0.banner_path))
    ∧ (∀ (env : Env) (vid : Nat) (t d hs u : String) (banner : Option UploadFileM)
        (s : SysState) (v0 : Video),
      findVideo s.db vid = some v0 →
      (update_video env vid t d hs u banner s).result = .redirect 303 "/admin" →
      ∃ v, findVideo (update_video env vid t d hs u banner s).state.db vid = some v
        ∧ v.id = v0.id ∧ v.created_at = v0.created_at) := by
  constructor
  · intro env vid t d hs u banner s hb
    have hred := update_nofile env vid t d hs u banner s hb
    refine ⟨?_, ?_, ?_, ?_⟩
    · rw [hred]
      cases hf : findVideo s.db vid with
      | none => rfl
      | some v0 =>
        cases hv : validate_form_input t u with
        | some e => rfl
        | none => cases hc : env.commitOk <;> simp [commitUpdate, hc]
    · intro p
      rw [hred]
      cases hf : findVideo s.db vid with
      | none => simp
      | some v0 =>
        cases hv : validate_form_input t u with
        | some e => simp
        | none => cases hc : env.commitOk <;> simp [commitUpdate, hc]
    · intro p
      rw [hred]
      cases hf : findVideo s.db vid with
      | none => simp
      | some v0 =>
        cases hv : validate_form_input t u with
        | some e => simp
        | none => cases hc : env.commitOk <;> simp [commitUpdate, hc]
    · intro v0 hf hres
      obtain ⟨bp, hfind, hbp⟩ := update_ok_record hf hres
      exact ⟨_, hfind, by rw [hbp hb]⟩
  · intro env vid t d hs u banner s v0 hf hres
    obtain ⟨bp, hfind, -⟩ := update_ok_record hf hres
    exact ⟨_, hfind, rfl, rfl⟩

/-- Witness for `c6_update_frame`: a no-file update commits new metadata
while keeping the banner path, id and creation time. -/
theorem c6_update_frame_witness :
    ((update_video ⟨"u", true, true, true, 7⟩ 1 "New title" "" ""
        "https://streamtape.com/e/ZZ/" none
        ⟨[⟨1, "T", none, none, "https://streamtape.com/e/ABC/", "ABC",
           "static/banners/old.jpg", 0, 0⟩], ["static/banners/old.jpg"]⟩).state.files =
      ["static/banners/old.jpg"])
    ∧ (∀ p, Event.fileDelete p ∉ (update_video ⟨"u", true, true, true, 7⟩ 1 "New title" "" ""
        "https://streamtape.com/e/ZZ/" none
        ⟨[⟨1, "T", none, none, "https://streamtape.com/e/ABC/", "ABC",
           "static/banners/old.jpg", 0, 0⟩], ["static/banners/old.jpg"]⟩).events)
    ∧ (∀ p, Event.fileWrite p ∉ (update_video ⟨"u", true, true, true, 7⟩ 1 "New title" "" ""
        "https://streamtape.com/e/ZZ/" none
        ⟨[⟨1, "T", none, none, "https://streamtape.com/e/ABC/", "ABC",
           "static/banners/old.jpg", 0, 0⟩], ["static/banners/old.jpg"]⟩).events)
    ∧ (∀ v0, findVideo [⟨1, "T", none, none, "https://streamtape.com/e/ABC/", "ABC",
           "static/banners/old.jpg", 0, 0⟩] 1 = some v0 →
        (update_video ⟨"u", true, true, true, 7⟩ 1 "New title" "" ""
          "https://streamtape.com/e/ZZ/" none
          ⟨[⟨1, "T", none, none, "https://streamtape.com/e/ABC/", "ABC",
             "static/banners/old.jpg", 0, 0⟩], ["static/banners/old.jpg"]⟩).result =
          .redirect 303 "/admin" →
        ∃ v, findVideo (update_video ⟨"u", true, true, true, 7⟩ 1 "New title" "" ""
            "https://streamtape.com/e/ZZ/" none
            ⟨[⟨1, "T", none, none, "https://streamtape.com/e/ABC/", "ABC",
               "static/banners/old.jpg", 0, 0⟩], ["static/banners/old.jpg"]⟩).state.db 1 =
            some v ∧ v.banner_path = v0.banner_path) :=
  c6_update_frame.1 ⟨"u", true, true, true, 7⟩ 1 "New title" "" ""
    "https://streamtape.com/e/ZZ/" none
    ⟨[⟨1, "T", none, none, "https://streamtape.com/e/ABC/", "ABC",
       "static/banners/old.jpg", 0, 0⟩], ["static/banners/old.jpg"]⟩ (Or.inl rfl)

end StreamHub

namespace StreamHub

/-! ### Claim C1: ordering of old-banner deletion in update -/

/-- C1 counterexample.  The handler deletes the old banner BEFORE
`db.commit()` (src/main.py:272-276), so the claim "the delete of the old
banner path never occurs before the persisted update succeeds, and
occurs only when the persisted update succeeds" fails: with a failing
commit, the update never succeeds (the table still holds the old record,
whose `banner_path` is `static/banners/old.jpg`), yet the old banner file
has been deleted — `fileDelete` is in the trace and the path is gone from
storage, leaving the record pointing at a missing file. -/
theorem c1_counterexample :
    update_video ⟨"11111111", true, false, true, 5⟩ 1 "T" "" ""
        "https://streamtape.com/e/ABC/" (some ⟨"b.png", "image/png"⟩)
        ⟨[⟨1, "T", none, none, "https://streamtape.com/e/ABC/", "ABC",
           "static/banners/old.jpg", 0, 0⟩], ["static/banners/old.jpg"]⟩ =
      ⟨.err ⟨500, "Failed to update video"⟩,
       ⟨[⟨1, "T", none, none, "https://streamtape.com/e/ABC/", "ABC",
          "static/banners/old.jpg", 0, 0⟩], ["static/banners/11111111.png"]⟩,
       [Event.fileWrite "static/banners/11111111.png",
        Event.fileDelete "static/banners/old.jpg"]⟩ := by
  decide

/-- C1 amended: the old banner file is deleted only when a new banner
file was supplied and successfully stored and the new path differs from
the old one; the delete comes immediately after the successful file
write and BEFORE the database commit — so it also happens when the
commit subsequently fails. -/
theorem c1_amended (env : Env) (vid : Nat) (t d hs u : String)
    (banner : Option UploadFileM) (s : SysState) (p : String)
    (hdel : Event.fileDelete p ∈ (update_video env vid t d hs u banner s).events) :
    ∃ (b : UploadFileM) (v0 : Video) (np : String) (fl : List String) (ev : List Event),
      banner = some b ∧ b.filename ≠ ""
      ∧ findVideo s.db vid = some v0 ∧ p = v0.banner_path
      ∧ save_uploaded_file env b s.files = .saved np fl ev
      ∧ np ≠ p
      ∧ (update_video env vid t d hs u banner s).events =
          Event.fileWrite np :: Event.fileDelete p ::
            (if env.commitOk then [Event.dbCommit] else []) := by
  cases hf : findVideo s.db vid with
  | none => simp [update_video, hf] at hdel
  | some v0 =>
    cases hval : validate_form_input t u with
    | some e => simp [update_video, hf, hval] at hdel
    | none =>
      cases banner with
      | none =>
        rw [update_nofile env vid t d hs u none s (Or.inl rfl), hf, hval] at hdel
        cases hc : env.commitOk <;> simp [commitUpdate, hc] at hdel
      | some b =>
        by_cases hbf : b.filename ≠ ""
        · cases hsave : save_uploaded_file env b s.files with
          | fail e => simp [update_video, hf, hval, if_pos hbf, hsave] at hdel
          | saved np fl1 ev1 =>
            have hev1 : ev1 = [Event.fileWrite np] := (save_saved_inv hsave).2.2.1
            by_cases hdiff : v0.banner_path ≠ np
            · by_cases hguard : v0.banner_path ≠ "" ∧ v0.banner_path ∈ fl1
              · have hdeleq : delete_file_safely env v0.banner_path fl1 =
                    (if env.removeOk then
                       fl1.filter (fun q => ¬ q = v0.banner_path) else fl1,
                     [Event.fileDelete v0.banner_path]) := by
                  rw [delete_file_safely, if_pos hguard]
                simp only [update_video, hf, hval, if_pos hbf, hsave, if_pos hdiff,
                  hdeleq, hev1] at hdel ⊢
                have hp : p = v0.banner_path := by
                  cases hc : env.commitOk <;> simp [commitUpdate, hc] at hdel <;>
                    exact hdel
                subst hp
                refine ⟨b, v0, np, fl1, [Event.fileWrite np], rfl, hbf, rfl, rfl,
                  hev1 ▸ hsave, fun he => hdiff he.symm, ?_⟩
                cases hc : env.commitOk <;> simp [commitUpdate, hc]
              · have hdeleq : delete_file_safely env v0.banner_path fl1 = (fl1, []) := by
                  rw [delete_file_safely, if_neg hguard]
                simp only [update_video, hf, hval, if_pos hbf, hsave, if_pos hdiff,
                  hdeleq, hev1] at hdel
                cases hc : env.commitOk <;> simp [commitUpdate, hc] at hdel
            · simp only [update_video, hf, hval, if_pos hbf, hsave, if_neg hdiff,
                hev1] at hdel
              cases hc : env.commitOk <;> simp [commitUpdate, hc] at hdel
        · rw [update_nofile env vid t d hs u (some b) s
              (Or.inr ⟨b, rfl, by simpa using hbf⟩), hf, hval] at hdel
          cases hc : env.commitOk <;> simp [commitUpdate, hc] at hdel

/-- Witness for `c1_amended`: in a fully successful update with a new
banner, the trace is write-then-delete-then-commit. -/
theorem c1_amended_witness :
    ∃ (b : UploadFileM) (v0 : Video) (np : String) (fl : List String) (ev : List Event),
      (some (⟨"b.png", "image/png"⟩ : UploadFileM)) = some b ∧ b.filename ≠ ""
      ∧ findVideo (⟨[⟨1, "T", none, none, "https://streamtape.com/e/ABC/", "ABC",
           "static/banners/old.jpg", 0, 0⟩], ["static/banners/old.jpg"]⟩ : SysState).db 1 =
          some v0
      ∧ "static/banners/old.jpg" = v0.banner_path
      ∧ save_uploaded_file ⟨"11111111", true, true, true, 5⟩ b
          (⟨[⟨1, "T", none, none, "https://streamtape.com/e/ABC/", "ABC",
             "static/banners/old.jpg", 0, 0⟩], ["static/banners/old.jpg"]⟩ : SysState).files =
          .saved np fl ev
      ∧ np ≠ "static/banners/old.jpg"
      ∧ (update_video ⟨"11111111", true, true, true, 5⟩ 1 "T" "" ""
          "https://streamtape.com/e/ABC/" (some ⟨"b.png", "image/png"⟩)
          ⟨[⟨1, "T", none, none, "https://streamtape.com/e/ABC/", "ABC",
             "static/banners/old.jpg", 0, 0⟩], ["static/banners/old.jpg"]⟩).events =
          Event.fileWrite np :: Event.fileDelete "static/banners/old.jpg" ::
            (if (⟨"11111111", true, true, true, 5⟩ : Env).commitOk
             then [Event.dbCommit] else []) :=
  c1_amended ⟨"11111111", true, true, true, 5⟩ 1 "T" "" ""
    "https://streamtape.com/e/ABC/" (some ⟨"b.png", "image/png"⟩)
    ⟨[⟨1, "T", none, none, "https://streamtape.com/e/ABC/", "ABC",
       "static/banners/old.jpg", 0, 0⟩], ["static/banners/old.jpg"]⟩
    "static/banners/old.jpg" (by decide)

end StreamHub
